import Mathlib

/-!
Shallow embedding of the go-tftpd per-datagram pipeline.

The embedded code is the `tftpd` package server (the file defining
`TFTPServer`, `handleConnection`, `handleRequest`, `handleResponse`,
`handleError`, `newRequest`, `newResponse`, `prepareFromRequest`,
`newTFTPError`) together with the wire helpers `toCString` / `readCString`
from util.go.

Modelling conventions:
* machine integers are `Nat` with an explicit `% 65536` where Go performs
  uint16 arithmetic (the `resp.number = req.number + 1` increment);
* Go runtime panics (negative slice bound in `req.body[:req.numRead-hdrsize]`,
  nil `*os.File` dereference) are an explicit `panicked` outcome, since they
  crash the process (no recover anywhere on the path);
* the backing file store is a name-indexed byte store; `os.Open` yields a
  read-only handle positioned at 0, `os.Create` inserts an empty file and
  yields a writable handle; reads return up to the requested count and
  signal EOF by returning fewer bytes, exactly as the Go code assumes;
* the 2048-byte receive buffer of `ListenAndServe` is modelled as the
  datagram padded with zero bytes (the buffer is zero-initialised; none of
  the verified traces depend on reused-buffer garbage, because the decoder
  only reads beyond `numRead` where the traces carry NUL-terminated fields
  inside the datagram).
-/

namespace GoTftpd

abbrev Byte := Nat

/-- Operation codes, the `operation` constants of the source. -/
def opUNK : Nat := 0

def opRRQ : Nat := 1

def opWRQ : Nat := 2

def opDATA : Nat := 3

def opACK : Nat := 4

def opERROR : Nat := 5

/-- Error codes, the `errorCode` constants of the source. -/
def ecNDEF : Nat := 0

def ecFNF : Nat := 1

def ecACV : Nat := 2

def ecDSK : Nat := 3

def ecILL : Nat := 4

def ecUTID : Nat := 5

def ecFEX : Nat := 6

def ecNOUS : Nat := 7

def bodyMaxSize : Nat := 2048

def defaultBlockSize : Nat := 512

def hdrsize : Nat := 4

/-- `toCString` from util.go: append a single zero byte. -/
def toCString (src : List Byte) : List Byte := src ++ [0]

/-- `readCString` from util.go: scan for the first zero byte; return
(number of consumed bytes, decoded bytes); `none` models the
`"Incorrect c string"` error when no zero byte exists. -/
def readCString : List Byte → Option (Nat × List Byte)
  | [] => none
  | b :: rest =>
    if b = 0 then some (1, [])
    else
      match readCString rest with
      | none => none
      | some (n, s) => some (n + 1, b :: s)

/-- The canonical messages of the `tftpErrors` table. -/
def tftpErrors : List String :=
  ["", "File not found.", "Access violation.", "Disk full or allocation exceeded.",
   "Illegal TFTP operation.", "Unknown transfer ID.", "File already exists.",
   "No such user."]

/-- `strings.Join l " "`. -/
def joinSpace : List String → String
  | [] => ""
  | [s] => s
  | s :: rest => s ++ " " ++ joinSpace rest

/-- A `*tftpError` value: error code plus the message error it wraps. -/
structure tftpError where
  code : Nat
  msg : String
deriving DecidableEq

/-- `newTFTPError`: clamp codes above `ecNOUS` to `ecNDEF`; an `ecNDEF`
error carries the joined caller-supplied message, others the canonical one. -/
def newTFTPError (code : Nat) (clientMessage : List String) : tftpError :=
  let c := if ecNOUS < code then ecNDEF else code
  { code := c
    msg := if c = ecNDEF then joinSpace clientMessage else tftpErrors.getD c "" }

/-- A Go `error` value travelling through the pipeline: either a
`*tftpError`, or one of the plain errors the model can produce
(`fmt.Errorf("Incorrect c string")`, file-already-closed I/O errors,
write-on-read-only-file I/O errors). -/
inductive goError where
  | tftpe (e : tftpError)
  | cstringErr
  | closedFile
  | badWrite
deriving DecidableEq

/-- UTF-8-agnostic byte view of an ASCII message string. -/
def strBytes (s : String) : List Byte := s.data.map Char.toNat

def bytesStr (l : List Byte) : String := String.mk (l.map Char.ofNat)

/-- The bytes of the literal mode string `"octet"`. -/
def octetBytes : List Byte := [111, 99, 116, 101, 116]

/-- A single-quote character as a string (byte 39). -/
def squote : String := String.mk [Char.ofNat 39]

/-- The message built by `fmt.Sprintf` for a non-octet mode. -/
def incorrectModeMsg (mode : List Byte) : String :=
  "Incorrect mode " ++ squote ++ bytesStr mode ++ squote ++
    ". This server supports only " ++ squote ++ "octet" ++ squote ++ " mode."

/-- The `request` structure (zero values for fields the opcode leaves unset). -/
structure request where
  numRead : Nat
  body : List Byte
  opcode : Nat
  number : Nat
  filename : List Byte
  mode : List Byte
  errorMessage : List Byte
deriving DecidableEq

/-- The `response` structure. -/
structure response where
  opcode : Nat
  number : Nat
  body : List Byte
deriving DecidableEq

/-- Big-endian 16-bit read, `binary.BigEndian.Uint16(b[:2])`. -/
def be16 (l : List Byte) : Nat := 256 * l.getD 0 0 + l.getD 1 0

/-- Outcome of `newRequest`: a decoded request, a Go error, or a runtime
panic of the process. -/
inductive decodeResult where
  | ok (req : request)
  | err (e : goError)
  | panicked
deriving DecidableEq

/-- `newRequest` from the server file.  The opcode is `body[1]` only (the
source carries a `TODO: operation BigEndian`).  For DATA/ACK the payload is
`req.body[:req.numRead-hdrsize]`, a Go slice expression that panics when
`numRead < hdrsize` (negative bound) or when the bound exceeds the buffer. -/
def newRequest (numRead : Nat) (buf : List Byte) : decodeResult :=
  let opcode := buf.getD 1 0
  let body := buf.drop 2
  if opcode = opRRQ ∨ opcode = opWRQ then
    match readCString body with
    | none => .err .cstringErr
    | some (n, filename) =>
      let body1 := body.drop n
      match readCString body1 with
      | none => .err .cstringErr
      | some (n2, mode) =>
        if mode ≠ octetBytes then
          .err (.tftpe (newTFTPError ecNDEF [incorrectModeMsg mode]))
        else
          .ok { numRead := numRead, body := body1.drop n2, opcode := opcode,
                number := 0, filename := filename, mode := mode,
                errorMessage := [] }
  else if opcode = opDATA ∨ opcode = opACK then
    if body.length < 2 then .panicked
    else
      let number := be16 body
      let body1 := body.drop 2
      if numRead < hdrsize ∨ body1.length < numRead - hdrsize then .panicked
      else
        .ok { numRead := numRead, body := body1.take (numRead - hdrsize),
              opcode := opcode, number := number, filename := [], mode := [],
              errorMessage := [] }
  else if opcode = opERROR then
    if body.length < 2 then .panicked
    else
      let number := be16 body
      let body1 := body.drop 2
      match readCString body1 with
      | none => .err .cstringErr
      | some (n, msg) =>
        .ok { numRead := numRead, body := body1.drop n, opcode := opcode,
              number := number, filename := [], mode := [],
              errorMessage := msg }
  else
    .ok { numRead := numRead, body := body, opcode := opcode, number := 0,
          filename := [], mode := [], errorMessage := [] }

/-- An open `*os.File` handle owned by a session: the name it was opened
under, the shared read/write offset, whether it was opened read-only
(`os.Open`) or read-write (`os.Create`), and whether it is still open. -/
structure fileHandle where
  name : List Byte
  pos : Nat
  readOnly : Bool
  isOpen : Bool
deriving DecidableEq

/-- The backing store: an association list from file name to contents. -/
abbrev fileStore := List (List Byte × List Byte)

def fsLookup : fileStore → List Byte → Option (List Byte)
  | [], _ => none
  | (k, v) :: rest, n => if k = n then some v else fsLookup rest n

def fsUpdate : fileStore → List Byte → List Byte → fileStore
  | [], _, _ => []
  | (k, v) :: rest, n, v2 =>
    if k = n then (k, v2) :: rest else (k, v) :: fsUpdate rest n v2

/-- `file.Read(buf)`: read up to `cap` bytes from the current offset;
reading past the end returns the short (possibly empty) chunk with `io.EOF`,
which the callers treat as success; reading a closed file is an error. -/
def fileRead (fs : fileStore) (h : fileHandle) (cap : Nat) :
    Except goError (List Byte × fileHandle) :=
  if h.isOpen = false then .error .closedFile
  else
    match fsLookup fs h.name with
    | none => .error .closedFile
    | some contents =>
      let chunk := (contents.drop h.pos).take cap
      .ok (chunk, { h with pos := h.pos + chunk.length })

/-- `io.Copy(file, reader)`: append the bytes at the current offset (all
writes in the pipeline are sequential appends).  Writing a closed file or a
file opened read-only by `os.Open` is an error. -/
def fileWrite (fs : fileStore) (h : fileHandle) (data : List Byte) :
    Except goError (fileStore × fileHandle) :=
  if h.isOpen = false then .error .closedFile
  else if h.readOnly = true then .error .badWrite
  else
    match fsLookup fs h.name with
    | none => .error .closedFile
    | some contents =>
      .ok (fsUpdate fs h.name (contents ++ data),
           { h with pos := h.pos + data.length })

/-- The `client` structure (session state); `file = none` is the nil
`*os.File` of a client that never completed `prepareFromRequest`. -/
structure client where
  tid : String
  file : Option fileHandle
  inited : Bool
  lastPkt : Bool
  blockSize : Nat
  bytesLeft : Int
deriving DecidableEq

/-- `newClient`: only the transfer id is set, everything else zero-valued. -/
def newClient (tid : String) : client :=
  { tid := tid, file := none, inited := false, lastPkt := false,
    blockSize := 0, bytesLeft := 0 }

/-- `prepareFromRequest`: open (RRQ) or exclusively create (WRQ) the backing
stream, record its size and the fixed block size, and mark the client
initialised.  A WRQ whose target exists fails with `ecFEX` before any
create; a missing RRQ target maps to `ecFNF`. -/
def prepareFromRequest (fs : fileStore) (cli : client) (req : request) :
    Except goError (fileStore × client) :=
  if req.opcode = opRRQ then
    match fsLookup fs req.filename with
    | none => .error (.tftpe (newTFTPError ecFNF []))
    | some contents =>
      .ok (fs,
        { cli with
          file := some { name := req.filename, pos := 0, readOnly := true,
                         isOpen := true }
          bytesLeft := (contents.length : Int)
          blockSize := defaultBlockSize
          inited := true })
  else
    match fsLookup fs req.filename with
    | some _ => .error (.tftpe (newTFTPError ecFEX []))
    | none =>
      .ok ((req.filename, []) :: fs,
        { cli with
          file := some { name := req.filename, pos := 0, readOnly := false,
                         isOpen := true }
          bytesLeft := 0
          blockSize := defaultBlockSize
          inited := true })

/-- Server state: the session table (address string to client) and the
backing store.  The listener itself is external. -/
structure serverState where
  connections : List (String × client)
  fs : fileStore
deriving DecidableEq

def lookupConn : List (String × client) → String → Option client
  | [], _ => none
  | (k, c) :: rest, a => if k = a then some c else lookupConn rest a

def updateConn : List (String × client) → String → client → List (String × client)
  | [], _, _ => []
  | (k, c) :: rest, a, c2 =>
    if k = a then (k, c2) :: rest else (k, c) :: updateConn rest a c2

def eraseConn : List (String × client) → String → List (String × client)
  | [], _ => []
  | (k, c) :: rest, a => if k = a then rest else (k, c) :: eraseConn rest a

/-- Outcome of `handleRequest`: success, a Go error, the sentinel
`endOfSession` (final ACK), or a process panic. -/
inductive hrResult where
  | ok (st : serverState) (cli : client)
  | err (st : serverState) (cli : client) (e : goError)
  | endSession (st : serverState) (cli : client)
  | panicked
deriving DecidableEq

/-- `handleRequest` from the server file, in source order: illegal-opcode
check, final-ACK teardown, unknown-transfer-id check, lazy
`prepareFromRequest`, peer-ERROR logging, DATA append. -/
def handleRequest (st : serverState) (cli : client) (req : request) : hrResult :=
  if req.opcode < opRRQ ∨ opERROR < req.opcode then
    .err st cli (.tftpe (newTFTPError ecILL []))
  else if req.opcode = opACK ∧ cli.inited = true ∧ cli.lastPkt = true then
    .endSession { st with connections := eraseConn st.connections cli.tid } cli
  else if cli.inited = false ∧ req.opcode ≠ opRRQ ∧ req.opcode ≠ opWRQ then
    .err st cli (.tftpe (newTFTPError ecUTID []))
  else
    match (if cli.inited = false then prepareFromRequest st.fs cli req
           else .ok (st.fs, cli)) with
    | .error e => .err st cli e
    | .ok (fs1, cli1) =>
      let st1 := { st with fs := fs1 }
      if req.opcode = opERROR then .ok st1 cli1
      else if req.opcode = opDATA then
        match cli1.file with
        | none => .panicked
        | some h =>
          match fileWrite fs1 h req.body with
          | .error e => .err st1 cli1 e
          | .ok (fs2, h2) =>
            .ok { st1 with fs := fs2 } { cli1 with file := some h2 }
      else .ok st1 cli1

/-- Outcome of `handleResponse`. -/
inductive hsResult where
  | ok (st : serverState) (cli : client) (resp : response)
  | err (st : serverState) (cli : client) (e : goError)
  | panicked
deriving DecidableEq

/-- `handleResponse`: for a DATA response, read up to a block of the file,
close the stream and set `lastPkt` when `bytesLeft` was already exhausted on
entry, truncate the body to the bytes read, and decrement `bytesLeft`. -/
def handleResponse (st : serverState) (cli : client) (resp : response) : hsResult :=
  if resp.opcode = opDATA then
    match cli.file with
    | none => .panicked
    | some h =>
      match fileRead st.fs h resp.body.length with
      | .error e => .err st cli e
      | .ok (chunk, h1) =>
        if cli.bytesLeft ≤ 0 then
          let h2 : fileHandle := { h1 with isOpen := false }
          let cli2 : client :=
            { cli with lastPkt := true, file := some h2,
                       bytesLeft := cli.bytesLeft - (chunk.length : Int) }
          .ok st cli2 { resp with body := chunk }
        else
          let cli2 : client :=
            { cli with file := some h1,
                       bytesLeft := cli.bytesLeft - (chunk.length : Int) }
          .ok st cli2 { resp with body := chunk }
  else .ok st cli resp

/-- `newResponse`: RRQ/ACK become the next DATA block (uint16 increment of
the block number of the request, block-sized scratch body); WRQ/DATA become
an ACK echoing the block number of the request; anything else is the zero-valued
response. -/
def newResponse (cli : client) (req : request) : response :=
  if req.opcode = opRRQ ∨ req.opcode = opACK then
    { opcode := opDATA, number := (req.number + 1) % 65536,
      body := List.replicate cli.blockSize 0 }
  else if req.opcode = opWRQ ∨ req.opcode = opDATA then
    { opcode := opACK, number := req.number, body := [] }
  else
    { opcode := 0, number := 0, body := [] }

/-- `handleError`: coerce a non-`*tftpError` into
`newTFTPError(ecNDEF, "Unexpected error.")`, mark the client initialised and
terminal, and build the outbound ERROR response that `sendError` emits
(its number field is the error code, its body the NUL-terminated message).
The session table and the stream are left untouched. -/
def handleError (st : serverState) (cli : client) (e : goError) :
    serverState × client × response :=
  let te := match e with
    | .tftpe t => t
    | _ => newTFTPError ecNDEF ["Unexpected error."]
  (st,
   { cli with inited := true, lastPkt := true },
   { opcode := opERROR, number := te.code, body := toCString (strBytes te.msg) })

/-- `sendResponse`: the bytes actually written to the socket for a
response: a 4-byte header (zero, opcode byte, big-endian number) followed
by the body. -/
def sendResponse (resp : response) : List Byte :=
  [0, resp.opcode % 256, resp.number / 256 % 256, resp.number % 256] ++ resp.body

/-- Outcome of `handleConnection`: the new server state plus the responses
sent for this datagram, or a process panic. -/
inductive connResult where
  | ok (st : serverState) (out : List response)
  | panicked
deriving DecidableEq

/-- Write the surviving client value back into its table slot (the Go code
mutates the `*client` that the map aliases; the model keeps the two in sync
at the end of the per-datagram pipeline, the only point after which the
table is read again). -/
def syncConn (st : serverState) (addr : String) (cli : client) : serverState :=
  { st with connections := updateConn st.connections addr cli }

/-- `handleConnection`: look up or lazily insert the client for the source
address, run decode / handleRequest / newResponse / handleResponse /
sendResponse, and route every error other than the `endOfSession` sentinel
through `handleError`, which sends exactly one ERROR response. -/
def handleConnection (st : serverState) (addr : String) (numRead : Nat)
    (buf : List Byte) : connResult :=
  let cli0 := match lookupConn st.connections addr with
    | some c => c
    | none => newClient addr
  let st0 := match lookupConn st.connections addr with
    | some _ => st
    | none => { st with connections := (addr, cli0) :: st.connections }
  match newRequest numRead buf with
  | .panicked => .panicked
  | .err e =>
    match handleError st0 cli0 e with
    | (st1, cli1, r) => .ok (syncConn st1 addr cli1) [r]
  | .ok req =>
    match handleRequest st0 cli0 req with
    | .panicked => .panicked
    | .endSession st1 cli1 => .ok (syncConn st1 addr cli1) []
    | .err st1 cli1 e =>
      match handleError st1 cli1 e with
      | (st2, cli2, r) => .ok (syncConn st2 addr cli2) [r]
    | .ok st1 cli1 =>
      match handleResponse st1 cli1 (newResponse cli1 req) with
      | .panicked => .panicked
      | .err st2 cli2 e =>
        match handleError st2 cli2 e with
        | (st3, cli3, r) => .ok (syncConn st3 addr cli3) [r]
      | .ok st2 cli2 resp2 => .ok (syncConn st2 addr cli2) [resp2]

/-- The zero-initialised 2048-byte receive buffer holding one datagram. -/
def recvBuf (d : List Byte) : List Byte :=
  d ++ List.replicate (bodyMaxSize - d.length) 0

/-- Run the `ListenAndServe` loop over a list of (source address, datagram)
pairs, collecting all responses; `none` means the process crashed on a
panic. -/
def run (st : serverState) : List (String × List Byte) →
    Option (serverState × List response)
  | [] => some (st, [])
  | (addr, d) :: rest =>
    match handleConnection st addr d.length (recvBuf d) with
    | .panicked => none
    | .ok st1 out =>
      match run st1 rest with
      | none => none
      | some (st2, outs) => some (st2, out ++ outs)

/-- A fixed client transport address for concrete traces. -/
def addr0 : String := "192.0.2.7:49152"

def rrqDgram (fname : List Byte) : List Byte :=
  0 :: opRRQ :: (fname ++ [0] ++ octetBytes ++ [0])

def wrqDgram (fname : List Byte) : List Byte :=
  0 :: opWRQ :: (fname ++ [0] ++ octetBytes ++ [0])

def ackDgram (n : Nat) : List Byte := [0, opACK, n / 256, n % 256]

def dataDgram (n : Nat) (payload : List Byte) : List Byte :=
  [0, opDATA, n / 256, n % 256] ++ payload

def errDgram (n : Nat) (msg : List Byte) : List Byte :=
  [0, opERROR, n / 256, n % 256] ++ msg ++ [0]

/-- The client value left behind by `handleError` for a session that never
initialised: `newClient` with both flags forced on, stream still nil. -/
def termClient (addr : String) : client :=
  { tid := addr, file := none, inited := true, lastPkt := true,
    blockSize := 0, bytesLeft := 0 }

/-- Mid-transfer state of an active READ session over contents `c`:
`pos` bytes already produced, stream open, block size 512. -/
def readCli (fname c : List Byte) (pos : Nat) : client :=
  { tid := addr0,
    file := some { name := fname, pos := pos, readOnly := true, isOpen := true },
    inited := true, lastPkt := false, blockSize := defaultBlockSize,
    bytesLeft := (c.length : Int) - (pos : Int) }

/-- The READ session after its final (empty) DATA block: stream closed,
`lastPkt` set, everything consumed. -/
def readDoneCli (fname c : List Byte) : client :=
  { tid := addr0,
    file := some { name := fname, pos := c.length, readOnly := true,
                   isOpen := false },
    inited := true, lastPkt := true, blockSize := defaultBlockSize,
    bytesLeft := 0 }

/-- The state a READ session reaches right after producing the block that
started from offset `pos`. -/
def nextCli (fname c : List Byte) (pos : Nat) : client :=
  if pos < c.length then readCli fname c (pos + min 512 (c.length - pos))
  else readDoneCli fname c

/-! ### Wire-codec lemmas -/

/-- `readCString` on a buffer that starts with a NUL-terminated string
without embedded NUL consumes exactly the string and its terminator. -/
theorem readCString_terminated (s : List Byte) (rest : List Byte) (h : 0 ∉ s) :
    readCString (s ++ 0 :: rest) = some (s.length + 1, s) := by
  induction s with
  | nil => simp [readCString]
  | cons b t ih =>
    have hb : b ≠ 0 := by
      intro hb0
      exact h (by simp [hb0])
    have ht : 0 ∉ t := fun hm => h (List.mem_cons_of_mem _ hm)
    simp [readCString, hb, ih ht]

/-- Helper: the concrete receive buffer of a datagram, split at its front. -/
theorem recvBuf_eq (d : List Byte) :
    recvBuf d = d ++ List.replicate (2048 - d.length) 0 := rfl

/-- Dropping a NUL-terminated field leaves the remainder of the buffer. -/
theorem drop_terminated (s rest : List Byte) :
    (s ++ 0 :: rest).drop (s.length + 1) = rest := by
  rw [show s ++ 0 :: rest = (s ++ [0]) ++ rest by simp,
    show s.length + 1 = (s ++ [0]).length by simp, List.drop_left]

/-! ### Decode lemmas: `newRequest` applied to each datagram shape. -/

/-- Decoding an ACK datagram (numRead 4). -/
theorem newRequest_ack (n : Nat) :
    newRequest 4 (recvBuf (ackDgram n)) =
      .ok { numRead := 4, body := [], opcode := opACK, number := n,
            filename := [], mode := [], errorMessage := [] } := by
  show newRequest 4 ([0, opACK, n / 256, n % 256] ++ List.replicate (2048 - 4) 0) = _
  simp only [newRequest, opRRQ, opWRQ, opDATA, opACK, opERROR, hdrsize,
    List.cons_append, List.drop_succ_cons, List.drop_zero, List.getD_cons_succ,
    List.getD_cons_zero, be16, List.length_cons, List.length_append,
    List.length_replicate]
  norm_num [Nat.div_add_mod]

/-- Decoding a DATA datagram carrying payload `p` (numRead `4 + p.length`). -/
theorem newRequest_data (n : Nat) (p : List Byte) :
    newRequest (4 + p.length) (recvBuf (dataDgram n p)) =
      .ok { numRead := 4 + p.length, body := p, opcode := opDATA, number := n,
            filename := [], mode := [], errorMessage := [] } := by
  show newRequest (4 + p.length)
      (([0, opDATA, n / 256, n % 256] ++ p) ++
        List.replicate (2048 - ([0, opDATA, n / 256, n % 256] ++ p).length) 0) = _
  simp only [newRequest, opRRQ, opWRQ, opDATA, opACK, opERROR, hdrsize,
    List.cons_append, List.append_assoc, List.drop_succ_cons, List.drop_zero,
    List.getD_cons_succ, List.getD_cons_zero, be16, List.length_cons,
    List.length_append, List.length_replicate]
  have hb : ¬ (2 + (p.length + (2048 - (4 + p.length))) < 2) := by omega
  have hg : ¬ (4 + p.length < 4 ∨
      p.length + (2048 - (4 + p.length)) < 4 + p.length - 4) := by omega
  have htake : (p ++ List.replicate (2048 - (4 + p.length)) 0).take
      (4 + p.length - 4) = p := by
    rw [show 4 + p.length - 4 = p.length by omega]
    exact List.take_left p _
  simp [hb, hg, htake, Nat.div_add_mod]

/-- Decoding an RRQ datagram for a NUL-free filename in octet mode. -/
theorem newRequest_rrq (m : Nat) (fname : List Byte) (h : 0 ∉ fname) :
    newRequest m (recvBuf (rrqDgram fname)) =
      .ok { numRead := m,
            body := List.replicate (2048 - (rrqDgram fname).length) 0,
            opcode := opRRQ, number := 0, filename := fname,
            mode := octetBytes, errorMessage := [] } := by
  have hoct : (0 : Nat) ∉ octetBytes := by decide
  show newRequest m
      ((0 :: opRRQ :: (fname ++ [0] ++ octetBytes ++ [0])) ++
        List.replicate (2048 - (rrqDgram fname).length) 0) = _
  rw [show (0 :: opRRQ :: (fname ++ [0] ++ octetBytes ++ [0])) ++
        List.replicate (2048 - (rrqDgram fname).length) 0 =
      0 :: opRRQ :: (fname ++ 0 :: (octetBytes ++ 0 ::
        List.replicate (2048 - (rrqDgram fname).length) 0)) by simp]
  simp [newRequest, opRRQ, opWRQ, readCString_terminated, drop_terminated,
    h, hoct]

/-- Decoding a WRQ datagram for a NUL-free filename in octet mode. -/
theorem newRequest_wrq (m : Nat) (fname : List Byte) (h : 0 ∉ fname) :
    newRequest m (recvBuf (wrqDgram fname)) =
      .ok { numRead := m,
            body := List.replicate (2048 - (wrqDgram fname).length) 0,
            opcode := opWRQ, number := 0, filename := fname,
            mode := octetBytes, errorMessage := [] } := by
  have hoct : (0 : Nat) ∉ octetBytes := by decide
  show newRequest m
      ((0 :: opWRQ :: (fname ++ [0] ++ octetBytes ++ [0])) ++
        List.replicate (2048 - (wrqDgram fname).length) 0) = _
  rw [show (0 :: opWRQ :: (fname ++ [0] ++ octetBytes ++ [0])) ++
        List.replicate (2048 - (wrqDgram fname).length) 0 =
      0 :: opWRQ :: (fname ++ 0 :: (octetBytes ++ 0 ::
        List.replicate (2048 - (wrqDgram fname).length) 0)) by simp]
  simp [newRequest, opRRQ, opWRQ, readCString_terminated, drop_terminated,
    h, hoct]

/-- Decoding a peer ERROR datagram with a NUL-free message. -/
theorem newRequest_err (n : Nat) (msg : List Byte) (h : 0 ∉ msg) :
    newRequest (errDgram n msg).length (recvBuf (errDgram n msg)) =
      .ok { numRead := (errDgram n msg).length,
            body := List.replicate (2048 - (errDgram n msg).length) 0,
            opcode := opERROR, number := n, filename := [], mode := [],
            errorMessage := msg } := by
  show newRequest (errDgram n msg).length
      ((0 :: opERROR :: (n / 256) :: (n % 256) :: (msg ++ [0])) ++
        List.replicate (2048 - (errDgram n msg).length) 0) = _
  rw [show (0 :: opERROR :: (n / 256) :: (n % 256) :: (msg ++ [0])) ++
        List.replicate (2048 - (errDgram n msg).length) 0 =
      0 :: opERROR :: (n / 256) :: (n % 256) ::
        (msg ++ 0 :: List.replicate (2048 - (errDgram n msg).length) 0)
      by simp]
  simp [newRequest, opRRQ, opWRQ, opDATA, opACK, opERROR, be16,
    readCString_terminated, drop_terminated, h, Nat.div_add_mod]

/-- Decoding the 2-byte datagram `[0x00, 0x04]` (ACK opcode, truncated):
the slice bound `numRead - hdrsize` is negative in Go, so the decoder
panics. -/
theorem newRequest_short_ack : newRequest 2 (recvBuf [0, 4]) = .panicked := by
  show newRequest 2 (([0, 4] : List Byte) ++ List.replicate 2046 0) = _
  simp only [newRequest, opRRQ, opWRQ, opDATA, opACK, opERROR, hdrsize,
    List.cons_append, List.nil_append, List.drop_succ_cons, List.drop_zero,
    List.getD_cons_succ, List.getD_cons_zero, List.length_replicate]
  norm_num

/-! ### Session-table lemmas -/

theorem lookupConn_cons_self (a : String) (c : client) (t : List (String × client)) :
    lookupConn ((a, c) :: t) a = some c := by
  simp [lookupConn]

theorem updateConn_cons_self (a : String) (c c2 : client) (t : List (String × client)) :
    updateConn ((a, c) :: t) a c2 = (a, c2) :: t := by
  simp [updateConn]

theorem eraseConn_cons_self (a : String) (c : client) (t : List (String × client)) :
    eraseConn ((a, c) :: t) a = t := by
  simp [eraseConn]

/-- Updating a slot with the value it already holds is a no-op. -/
theorem updateConn_of_lookup :
    ∀ (l : List (String × client)) (a : String) (c : client),
      lookupConn l a = some c → updateConn l a c = l
  | [], a, c, h => by simp [lookupConn] at h
  | (k, v) :: t, a, c, h => by
    by_cases hk : k = a
    · subst hk
      have hv : v = c := by simpa [lookupConn] using h
      subst hv
      simp [updateConn]
    · simp only [lookupConn, if_neg hk] at h
      simp [updateConn, hk, updateConn_of_lookup t a c h]

/-! ### One-datagram step lemmas for an active READ session -/

/-- Feeding ACK(n) to an active READ session at offset `pos` produces
DATA(n+1) whose payload is the next (up to) 512 bytes, advancing the
session to `nextCli` (which closes the stream and sets `lastPkt` when the
file was already exhausted on entry). -/
theorem ack_step (fname c : List Byte) (pos n : Nat) (hpos : pos ≤ c.length)
    (hn : n + 1 < 65536) :
    handleConnection
        { connections := [(addr0, readCli fname c pos)], fs := [(fname, c)] }
        addr0 4 (recvBuf (ackDgram n)) =
      .ok { connections := [(addr0, nextCli fname c pos)], fs := [(fname, c)] }
        [{ opcode := opDATA, number := n + 1, body := (c.drop pos).take 512 }] := by
  simp only [handleConnection, lookupConn_cons_self, newRequest_ack]
  simp only [handleRequest, readCli, opRRQ, opWRQ, opDATA, opACK, opERROR]
  norm_num
  simp only [newResponse, opRRQ, opACK, opDATA, Nat.mod_eq_of_lt hn]
  norm_num
  simp only [handleResponse, opDATA, fileRead, fsLookup]
  norm_num
  rcases Nat.lt_or_ge pos c.length with hlt | hge
  · rw [if_neg (by omega : ¬ (c.length ≤ pos))]
    simp only [syncConn, updateConn, if_pos rfl, nextCli, if_pos hlt, readCli,
      defaultBlockSize]
    norm_num
    omega
  · have hpe : pos = c.length := le_antisymm hpos hge
    subst hpe
    rw [if_pos (le_refl c.length)]
    have hnl : ¬ (c.length < c.length) := lt_irrefl _
    simp only [syncConn, updateConn, if_pos rfl, nextCli, if_neg hnl,
      readDoneCli, defaultBlockSize, List.drop_eq_nil_of_le (le_refl c.length)]
    norm_num

/-- Feeding one more ACK to a READ session whose final block is out closes
the session: the table entry is deleted, nothing is sent. -/
theorem ack_term_step (fname c : List Byte) (n : Nat) :
    handleConnection
        { connections := [(addr0, readDoneCli fname c)], fs := [(fname, c)] }
        addr0 4 (recvBuf (ackDgram n)) =
      .ok { connections := [], fs := [(fname, c)] } [] := by
  simp only [handleConnection, lookupConn_cons_self, newRequest_ack]
  simp only [handleRequest, readDoneCli, opRRQ, opWRQ, opDATA, opACK, opERROR]
  norm_num
  simp only [syncConn, eraseConn, if_pos rfl, updateConn]

/-- An RRQ from a fresh address for an existing file opens the session and
produces DATA(1) with the first (up to) 512 bytes. -/
theorem rrq_step (fname c : List Byte) (m : Nat) (h : 0 ∉ fname) :
    handleConnection { connections := [], fs := [(fname, c)] } addr0 m
        (recvBuf (rrqDgram fname)) =
      .ok { connections := [(addr0, nextCli fname c 0)], fs := [(fname, c)] }
        [{ opcode := opDATA, number := 1, body := c.take 512 }] := by
  simp only [handleConnection, lookupConn, newRequest_rrq m fname h]
  simp only [handleRequest, newClient, prepareFromRequest, fsLookup,
    opRRQ, opWRQ, opDATA, opACK, opERROR]
  norm_num
  simp only [newResponse, opRRQ, opACK, opDATA]
  norm_num
  simp only [handleResponse, opDATA, fileRead, fsLookup]
  norm_num
  rcases Nat.eq_zero_or_pos c.length with hc0 | hcpos
  · have hce : c = [] := List.length_eq_zero.mp hc0
    subst hce
    simp only [if_pos rfl, syncConn, updateConn, nextCli, readDoneCli,
      defaultBlockSize]
    norm_num [nextCli, readDoneCli, defaultBlockSize, updateConn]
  · have hne : ¬ (c = []) := by
      intro hc
      rw [hc] at hcpos
      simp at hcpos
    rw [if_neg hne]
    have hlt : 0 < c.length := hcpos
    simp only [syncConn, updateConn, if_pos rfl, nextCli, if_pos hlt, readCli,
      defaultBlockSize]
    norm_num

/-! ### Multi-step traces of a full READ session -/

/-- An ACK datagram is 4 bytes long. -/
theorem ackDgram_length (k : Nat) : (ackDgram k).length = 4 := rfl

/-- Peel the first element off a mapped range. -/
theorem range_map_cons {a : Type} (f : Nat → a) (k : Nat) :
    (List.range (k + 1)).map f = f 0 :: (List.range k).map (fun j => f (j + 1)) := by
  rw [List.range_succ_eq_map, List.map_cons, List.map_map]
  rfl

set_option maxHeartbeats 1000000

/-- The ACK-driven tail of a READ session: from offset `pos` with `r` bytes
left (`q` more full-or-short data-carrying blocks), the client ACKs blocks
n, n+1, ... ; the server answers each but the last with the next DATA block
and deletes the session entry on the ACK that follows its final empty
block. -/
theorem run_acks (fname c : List Byte) :
    ∀ (q r pos n : Nat), pos + r = c.length → (r + 511) / 512 = q →
      n + q + 1 < 65536 →
      run { connections := [(addr0, readCli fname c pos)], fs := [(fname, c)] }
          ((List.range (q + 2)).map (fun j => (addr0, ackDgram (n + j)))) =
        some ({ connections := [], fs := [(fname, c)] },
          (List.range (q + 1)).map (fun j =>
            ({ opcode := opDATA, number := n + 1 + j,
               body := (c.drop (pos + 512 * j)).take 512 } : response))) := by
  intro q
  induction q with
  | zero =>
    intro r pos n hpr hq hn
    have hpe : pos = c.length := by omega
    subst hpe
    have hd : c.drop c.length = [] := List.drop_eq_nil_of_le le_rfl
    have htr : (List.range (0 + 2)).map
          (fun j => ((addr0, ackDgram (n + j)) : String × List Byte)) =
        [(addr0, ackDgram n), (addr0, ackDgram (n + 1))] := by
      simp [List.range_succ, List.range_zero]
    rw [htr]
    simp only [run, ackDgram_length]
    rw [ack_step fname c c.length n le_rfl (by omega)]
    simp only [nextCli, if_neg (lt_irrefl c.length)]
    rw [ack_term_step fname c (n + 1)]
    simp [hd, List.range_succ, List.range_zero]
  | succ q ih =>
    intro r pos n hpr hq hn
    have hr1 : 1 ≤ r := by omega
    have hposlt : pos < c.length := by omega
    have htr : (List.range (q + 1 + 2)).map
          (fun j => ((addr0, ackDgram (n + j)) : String × List Byte)) =
        (addr0, ackDgram n) ::
          (List.range (q + 2)).map (fun j => (addr0, ackDgram (n + 1 + j))) := by
      rw [show q + 1 + 2 = (q + 2) + 1 from rfl, range_map_cons]
      have hhead : ((addr0, ackDgram (n + 0)) : String × List Byte) =
          (addr0, ackDgram n) := by rw [Nat.add_zero]
      have htail : ∀ a ∈ List.range (q + 2),
          ((addr0, ackDgram (n + (a + 1))) : String × List Byte) =
            (addr0, ackDgram (n + 1 + a)) := by
        intro a _
        rw [show n + (a + 1) = n + 1 + a from by omega]
      exact congrArg₂ List.cons hhead (List.map_congr_left htail)
    rw [htr]
    simp only [run, ackDgram_length]
    rw [ack_step fname c pos n (le_of_lt hposlt) (by omega)]
    simp only [nextCli, if_pos hposlt]
    rcases Nat.lt_or_ge r 512 with hlt | hge
    · -- last data-carrying block: it is short, q = 0
      have hqz : q = 0 := by omega
      subst hqz
      have hmin : min 512 (c.length - pos) = r := by omega
      rw [hmin, hpr]
      rw [ih 0 c.length (n + 1) (by omega) (by omega) (by omega)]
      have hd2 : c.drop (pos + 512 * 1) = [] := List.drop_eq_nil_of_le (by omega)
      have hd3 : c.drop c.length = [] := List.drop_eq_nil_of_le le_rfl
      simp [List.range_succ, List.range_zero, hd2, hd3]
    · -- full block, recurse
      have hmin : min 512 (c.length - pos) = 512 := by omega
      rw [hmin]
      have hout : (List.range (q + 1 + 1)).map
            (fun j =>
              ({ opcode := opDATA, number := n + 1 + j,
                 body := (c.drop (pos + 512 * j)).take 512 } : response)) =
          ({ opcode := opDATA, number := n + 1,
             body := (c.drop pos).take 512 } : response) ::
            (List.range (q + 1)).map (fun j =>
              ({ opcode := opDATA, number := n + 1 + 1 + j,
                 body := (c.drop (pos + 512 + 512 * j)).take 512 } : response)) := by
        rw [show q + 1 + 1 = (q + 1) + 1 from rfl, range_map_cons]
        have hhead : ({ opcode := opDATA, number := n + 1 + 0,
                        body := (c.drop (pos + 512 * 0)).take 512 } : response) =
            { opcode := opDATA, number := n + 1, body := (c.drop pos).take 512 } := by
          norm_num
        have htail : ∀ a ∈ List.range (q + 1),
            ({ opcode := opDATA, number := n + 1 + (a + 1),
                body := (c.drop (pos + 512 * (a + 1))).take 512 } : response) =
              { opcode := opDATA, number := n + 1 + 1 + a,
                  body := (c.drop (pos + 512 + 512 * a)).take 512 } := by
          intro a _
          rw [show n + 1 + (a + 1) = n + 1 + 1 + a from by omega,
              show pos + 512 * (a + 1) = pos + 512 + 512 * a from by omega]
        exact congrArg₂ List.cons hhead (List.map_congr_left htail)
      rw [hout]
      rw [ih (r - 512) (pos + 512) (n + 1) (by omega) (by omega) (by omega)]
      simp

/-- Claim C1 (amended).  For a READ session over an N-byte file, the server
emits `(N + 511) / 512 + 1` DATA blocks numbered 1.., i.e. `ceil(N/512)`
data-carrying blocks (the last of them holding `N mod 512` bytes when 512
does not divide N) followed by one final empty DATA block; the stream is
closed when that final empty block is produced, and the table entry is
removed when the ACK following the final empty block arrives — one
DATA/ACK round trip later than the original claim states. -/
theorem claim1_read_session_trace (fname c : List Byte) (h : 0 ∉ fname)
    (hW : c.length < 512 * 65000) :
    run { connections := [], fs := [(fname, c)] }
        ((addr0, rrqDgram fname) ::
          (List.range ((c.length + 511) / 512 + 1)).map
            (fun i => (addr0, ackDgram (1 + i)))) =
      some ({ connections := [], fs := [(fname, c)] },
        (List.range ((c.length + 511) / 512 + 1)).map
          (fun i => ({ opcode := opDATA, number := 1 + i,
                       body := (c.drop (512 * i)).take 512 } : response))) := by
  rcases Nat.eq_zero_or_pos c.length with hc0 | hcpos
  · have hce : c = [] := List.length_eq_zero.mp hc0
    subst hce
    simp only [List.length_nil]
    rw [show ((0 : Nat) + 511) / 512 + 1 = 1 from by norm_num]
    simp only [List.range_succ, List.range_zero, List.nil_append, List.map_cons,
      List.map_nil]
    simp only [run, ackDgram_length]
    rw [rrq_step fname [] (rrqDgram fname).length h]
    simp only [show nextCli fname [] 0 = readDoneCli fname [] from by
      simp [nextCli]]
    rw [show (1 : Nat) + 0 = 1 from by norm_num]
    rw [ack_term_step fname [] 1]
    simp
  · set Q := (c.length + 511) / 512 with hQ
    have hQ1 : 1 ≤ Q := by omega
    simp only [run]
    rw [rrq_step fname c (rrqDgram fname).length h]
    simp only [show nextCli fname c 0 = readCli fname c (min 512 c.length) from by
      simp [nextCli, hcpos]]
    rw [show Q + 1 = (Q - 1) + 2 from by omega]
    rw [run_acks fname c (Q - 1) (c.length - min 512 c.length)
        (min 512 c.length) 1 (by omega) (by omega) (by omega)]
    have hsplit : (List.range ((Q - 1) + 2)).map
          (fun i => ({ opcode := opDATA, number := 1 + i,
                       body := (c.drop (512 * i)).take 512 } : response)) =
        ({ opcode := opDATA, number := 1, body := c.take 512 } : response) ::
          (List.range ((Q - 1) + 1)).map
            (fun j => ({ opcode := opDATA, number := 1 + 1 + j,
                         body := (c.drop (min 512 c.length + 512 * j)).take 512 } :
              response)) := by
      rw [show (Q - 1) + 2 = ((Q - 1) + 1) + 1 from rfl, range_map_cons]
      have hhead2 : ({ opcode := opDATA, number := 1 + 0,
                       body := (c.drop (512 * 0)).take 512 } : response) =
          { opcode := opDATA, number := 1, body := c.take 512 } := by
        norm_num
      have htail2 : ∀ a ∈ List.range ((Q - 1) + 1),
          ({ opcode := opDATA, number := 1 + (a + 1),
             body := (c.drop (512 * (a + 1))).take 512 } : response) =
            { opcode := opDATA, number := 1 + 1 + a,
              body := (c.drop (min 512 c.length + 512 * a)).take 512 } := by
        intro a ha
        have haQ : a < (Q - 1) + 1 := List.mem_range.mp ha
        rw [show (1 : Nat) + (a + 1) = 1 + 1 + a from by omega]
        rcases Nat.lt_or_ge c.length 512 with hlt | hge
        · have hQ2 : Q = 1 := by omega
          have ha0 : a = 0 := by omega
          subst ha0
          rw [List.drop_eq_nil_of_le (by omega : c.length ≤ 512 * (0 + 1)),
            List.drop_eq_nil_of_le
              (by omega : c.length ≤ min 512 c.length + 512 * 0)]
        · rw [show min 512 c.length = 512 from by omega,
            show (512 : Nat) * (a + 1) = 512 + 512 * a from by omega]
      exact congrArg₂ List.cons hhead2 (List.map_congr_left htail2)
    rw [hsplit]
    simp


/-! ### Claim theorems -/

/-- Claim C9: for every string without an embedded NUL byte, including the
empty string, `readCString (toCString s)` succeeds and returns
`(s.length + 1, s)`. -/
theorem claim9_cstring_roundtrip (s : List Byte) (h : 0 ∉ s) :
    readCString (toCString s) = some (s.length + 1, s) := by
  simpa [toCString] using readCString_terminated s [] h

/-- Claim C9 witness at a concrete string. -/
theorem claim9_cstring_roundtrip_witness :
    (0 : Byte) ∉ ([104, 105] : List Byte) ∧
      readCString (toCString [104, 105]) = some (3, [104, 105]) :=
  ⟨by decide, claim9_cstring_roundtrip [104, 105] (by decide)⟩

/-- Claim C2 (the code refutes it): the 2-byte datagram `[0x00, 0x04]` — an
ACK opcode with length below the 4-byte header — makes the decoder evaluate
`req.body[:numRead-hdrsize]` with a negative bound, a runtime panic that no
recover catches, so the process crashes instead of answering with an ERROR
packet. -/
theorem claim2_short_datagram_panics :
    handleConnection { connections := [], fs := [] } addr0 2 (recvBuf [0, 4]) =
      .panicked := by
  simp only [handleConnection, lookupConn, newRequest_short_ack]

/-- Claim C4 (amended): `handleError` produces exactly one outbound ERROR
response and marks the session terminated by forcing `inited` and `lastPkt`
to true (even for a session that never completed initialization), but it
does not close the stream (the `file` field is untouched) and does not
remove the table entry (the server state is returned unchanged). -/
theorem claim4_error_mapper (st : serverState) (cli : client) (e : goError) :
    (handleError st cli e).1 = st ∧
    (handleError st cli e).2.1 = { cli with inited := true, lastPkt := true } ∧
    (handleError st cli e).2.2.opcode = opERROR := by
  cases e <;> simp [handleError]

/-- Claim C4 counterexample: a WRQ for an existing file is answered with a
single FILE_ALREADY_EXISTS error, yet the table entry of the session is not
removed — the table ends up holding a terminated entry for the address,
contradicting the claim that the entry is removed. -/
theorem claim4_counterexample :
    run { connections := [], fs := [([102], [7])] } [(addr0, wrqDgram [102])] =
      some ({ connections := [(addr0, termClient addr0)], fs := [([102], [7])] },
        [{ opcode := opERROR, number := ecFEX,
           body := toCString (strBytes "File already exists.") }]) := by
  simp only [run]
  simp only [handleConnection, lookupConn,
    newRequest_wrq (wrqDgram [102]).length [102] (by decide)]
  simp only [handleRequest, newClient, prepareFromRequest, fsLookup,
    opRRQ, opWRQ, opDATA, opACK, opERROR]
  norm_num
  simp only [handleError, newTFTPError, tftpErrors, ecNDEF, ecNOUS, ecFEX,
    syncConn, updateConn, termClient, newClient]
  norm_num
  rfl

/-- The decoder never looks at the first byte of the datagram: the opcode
is `buf[1]` alone. -/
theorem newRequest_ignores_first_byte (numRead : Nat) (b b2 : Byte)
    (rest : List Byte) :
    newRequest numRead (b :: rest) = newRequest numRead (b2 :: rest) := rfl

/-- `handleConnection` depends on the receive buffer only through the
decoder. -/
theorem handleConnection_congr_buf (st : serverState) (addr : String)
    (numRead : Nat) (b1 b2 : List Byte)
    (h : newRequest numRead b1 = newRequest numRead b2) :
    handleConnection st addr numRead b1 = handleConnection st addr numRead b2 := by
  unfold handleConnection
  rw [h]

/-- Claim C3 (the code refutes it): the decoder takes only byte 1 of the
datagram as the opcode (the source marks the gap with
`TODO: operation BigEndian`).  A datagram whose first 16-bit big-endian
field is 0x0101 = 257 — outside 1..5 — is handled as an RRQ and answered
with DATA(1), not with an ILLEGAL_OPERATION error. -/
theorem claim3_opcode_single_byte :
    be16 (1 :: 1 :: ([102] ++ [0] ++ octetBytes ++ [0])) = 257 ∧
    run { connections := [], fs := [([102], [7])] }
        [(addr0, 1 :: 1 :: ([102] ++ [0] ++ octetBytes ++ [0]))] =
      some ({ connections := [(addr0, readCli [102] [7] 1)],
              fs := [([102], [7])] },
        [{ opcode := opDATA, number := 1, body := [7] }]) := by
  constructor
  · norm_num [be16, octetBytes]
  · have hsame : newRequest 10
        (recvBuf (1 :: 1 :: ([102] ++ [0] ++ octetBytes ++ [0]))) =
        newRequest 10 (recvBuf (rrqDgram [102])) := rfl
    simp only [run]
    rw [show ((1 :: 1 :: ([102] ++ [0] ++ octetBytes ++ [0])) : List Byte).length
        = 10 from rfl]
    rw [handleConnection_congr_buf _ _ _ _ _ hsame]
    rw [rrq_step [102] [7] 10 (by decide)]
    simp only [show nextCli [102] [7] 0 = readCli [102] [7] 1 from by
      norm_num [nextCli, readCli]]
    simp [run]

/-- Claim C1 counterexample: for a 1-byte file (so `ceil(N/B) = 1`), the
claim predicts a single DATA block and removal of the session after ACK(1);
the code instead answers ACK(1) with a second, empty DATA block and keeps
the table entry (stream closed, `lastPkt` set) — removal only happens on a
later ACK. -/
theorem claim1_counterexample :
    run { connections := [], fs := [([102], [7])] }
        [(addr0, rrqDgram [102]), (addr0, ackDgram 1)] =
      some ({ connections := [(addr0, readDoneCli [102] [7])],
              fs := [([102], [7])] },
        [{ opcode := opDATA, number := 1, body := [7] },
         { opcode := opDATA, number := 2, body := [] }]) := by
  simp only [run, ackDgram_length]
  rw [rrq_step [102] [7] (rrqDgram [102]).length (by decide)]
  simp only [show nextCli [102] [7] 0 = readCli [102] [7] 1 from by
    norm_num [nextCli, readCli]]
  rw [ack_step [102] [7] 1 1 (by norm_num) (by norm_num)]
  simp only [show nextCli [102] [7] 1 = readDoneCli [102] [7] from by
    norm_num [nextCli]]
  simp [run]

/-- Claim C1 witness: the amended trace theorem applied to a 1-byte file. -/
theorem claim1_read_session_trace_witness :
    (0 : Byte) ∉ ([102] : List Byte) ∧
    ([7] : List Byte).length < 512 * 65000 ∧
    run { connections := [], fs := [([102], [7])] }
        ((addr0, rrqDgram [102]) ::
          (List.range ((([7] : List Byte).length + 511) / 512 + 1)).map
            (fun i => (addr0, ackDgram (1 + i)))) =
      some ({ connections := [], fs := [([102], [7])] },
        (List.range ((([7] : List Byte).length + 511) / 512 + 1)).map
          (fun i => ({ opcode := opDATA, number := 1 + i,
                       body := (([7] : List Byte).drop (512 * i)).take 512 } :
            response))) :=
  ⟨by decide, by decide,
    claim1_read_session_trace [102] [7] (by decide) (by decide)⟩

/-- Claim C5 (amended): a DATA, ACK, or ERROR request from an address with
no session is answered with a single UNKNOWN_TRANSFER_ID error — but the
session table does not stay unchanged: `handleConnection` inserts a fresh
entry for the address before validating, and the error path leaves it there
marked terminated (`termClient`). -/
theorem claim5_unknown_tid (st : serverState) (addr : String) (numRead : Nat)
    (buf : List Byte) (req : request)
    (hnc : lookupConn st.connections addr = none)
    (hdec : newRequest numRead buf = .ok req)
    (hop : req.opcode = opDATA ∨ req.opcode = opACK ∨ req.opcode = opERROR) :
    handleConnection st addr numRead buf =
      .ok { st with connections := (addr, termClient addr) :: st.connections }
        [{ opcode := opERROR, number := ecUTID,
           body := toCString (strBytes "Unknown transfer ID.") }] := by
  simp only [handleConnection, hnc, hdec]
  rcases hop with h | h | h <;>
    simp [handleRequest, h, newClient, opRRQ, opWRQ, opDATA, opACK, opERROR,
      handleError, newTFTPError, tftpErrors, ecNDEF, ecNOUS, ecUTID,
      syncConn, updateConn, termClient]

/-- Claim C5 witness: an ACK from a fresh address. -/
theorem claim5_unknown_tid_witness :
    lookupConn ([] : List (String × client)) addr0 = none ∧
    newRequest 4 (recvBuf (ackDgram 2)) =
      .ok { numRead := 4, body := [], opcode := opACK, number := 2,
            filename := [], mode := [], errorMessage := [] } ∧
    handleConnection { connections := [], fs := [] } addr0 4
        (recvBuf (ackDgram 2)) =
      .ok { connections := [(addr0, termClient addr0)], fs := [] }
        [{ opcode := opERROR, number := ecUTID,
           body := toCString (strBytes "Unknown transfer ID.") }] :=
  ⟨rfl, newRequest_ack 2,
    claim5_unknown_tid { connections := [], fs := [] } addr0 4
      (recvBuf (ackDgram 2))
      { numRead := 4, body := [], opcode := opACK, number := 2,
        filename := [], mode := [], errorMessage := [] }
      rfl (newRequest_ack 2) (Or.inr (Or.inl rfl))⟩

/-- Claim C5 counterexample: after an ACK from a previously-unseen address
the server does send UNKNOWN_TRANSFER_ID, but the table now holds an entry
for that address — the assertion "no session is created for that address (the
session table is unchanged)" is false. -/
theorem claim5_counterexample :
    run { connections := [], fs := [] } [(addr0, ackDgram 1)] =
      some ({ connections := [(addr0, termClient addr0)], fs := [] },
        [{ opcode := opERROR, number := ecUTID,
           body := toCString (strBytes "Unknown transfer ID.") }]) := by
  simp only [run, ackDgram_length]
  simp only [handleConnection, lookupConn, newRequest_ack 1]
  simp [handleRequest, newClient, opRRQ, opWRQ, opDATA, opACK, opERROR,
    handleError, newTFTPError, tftpErrors, ecNDEF, ecNOUS, ecUTID,
    syncConn, updateConn, termClient]

/-- Claim C7 (amended): a session-opening WRQ (from an address with no
session) naming an existing file is answered with FILE_ALREADY_EXISTS
before any write — the store is unchanged — but a terminated table entry is
left behind for the address.  A WRQ arriving on an already-initialised
session does not re-check existence at all (see the counterexample). -/
theorem claim7_wrq_existing (st : serverState) (addr : String) (numRead : Nat)
    (buf : List Byte) (req : request) (c : List Byte)
    (hnc : lookupConn st.connections addr = none)
    (hdec : newRequest numRead buf = .ok req)
    (hop : req.opcode = opWRQ)
    (hex : fsLookup st.fs req.filename = some c) :
    handleConnection st addr numRead buf =
      .ok { st with connections := (addr, termClient addr) :: st.connections }
        [{ opcode := opERROR, number := ecFEX,
           body := toCString (strBytes "File already exists.") }] := by
  simp only [handleConnection, hnc, hdec]
  simp [handleRequest, prepareFromRequest, hop, hex, newClient,
    opRRQ, opWRQ, opDATA, opACK, opERROR,
    handleError, newTFTPError, tftpErrors, ecNDEF, ecNOUS, ecFEX,
    syncConn, updateConn, termClient]

/-- Claim C7 witness: a fresh-address WRQ for an existing file. -/
theorem claim7_wrq_existing_witness :
    lookupConn ([] : List (String × client)) addr0 = none ∧
    fsLookup [([103], [9])] [103] = some [9] ∧
    handleConnection { connections := [], fs := [([103], [9])] } addr0
        (wrqDgram [103]).length (recvBuf (wrqDgram [103])) =
      .ok { connections := [(addr0, termClient addr0)], fs := [([103], [9])] }
        [{ opcode := opERROR, number := ecFEX,
           body := toCString (strBytes "File already exists.") }] :=
  ⟨rfl, by simp [fsLookup],
    claim7_wrq_existing { connections := [], fs := [([103], [9])] } addr0
      (wrqDgram [103]).length (recvBuf (wrqDgram [103]))
      { numRead := (wrqDgram [103]).length,
        body := List.replicate (2048 - (wrqDgram [103]).length) 0,
        opcode := opWRQ, number := 0, filename := [103], mode := octetBytes,
        errorMessage := [] }
      [9] rfl (newRequest_wrq (wrqDgram [103]).length [103] (by decide)) rfl
      (by simp [fsLookup])⟩

/-- Claim C7 counterexample: a WRQ naming the existing file `[102]` sent on
an already-initialised session is answered with ACK(0), not
FILE_ALREADY_EXISTS — the universal assertion "every WRQ naming an existing
file yields FILE_ALREADY_EXISTS" is false (nothing is written, and the
session is untouched). -/
theorem claim7_counterexample :
    run { connections := [(addr0, readCli [102] [7] 0)], fs := [([102], [7])] }
        [(addr0, wrqDgram [102])] =
      some ({ connections := [(addr0, readCli [102] [7] 0)],
              fs := [([102], [7])] },
        [{ opcode := opACK, number := 0, body := [] }]) := by
  simp only [run]
  simp only [handleConnection, lookupConn_cons_self,
    newRequest_wrq (wrqDgram [102]).length [102] (by decide)]
  simp only [handleRequest, readCli, opRRQ, opWRQ, opDATA, opACK, opERROR]
  norm_num
  simp only [newResponse, opRRQ, opACK, opDATA, opWRQ]
  norm_num
  simp [handleResponse, opDATA, syncConn, updateConn, readCli]

/-- Claim C8 (amended): a peer ERROR packet arriving for an initialised
session is only logged — the session is not terminated, its stream stays
open and its table entry is untouched (the whole server state is returned
unchanged) — but the server does send one response datagram back: the
zero-valued response (opcode 0, number 0, empty body — 4 bytes on the
wire), because `newResponse` has no case for the ERROR opcode. -/
theorem claim8_peer_error_soft (st : serverState) (addr : String)
    (numRead : Nat) (buf : List Byte) (req : request) (cli : client)
    (hc : lookupConn st.connections addr = some cli)
    (hin : cli.inited = true)
    (hdec : newRequest numRead buf = .ok req)
    (hop : req.opcode = opERROR) :
    handleConnection st addr numRead buf =
      .ok st [{ opcode := 0, number := 0, body := [] }] := by
  simp only [handleConnection, hc, hdec]
  simp [handleRequest, hop, hin, opRRQ, opWRQ, opDATA, opACK, opERROR,
    newResponse, handleResponse, syncConn, updateConn_of_lookup _ _ _ hc]

/-- Claim C8 witness: an ERROR datagram sent to an active READ session. -/
theorem claim8_peer_error_soft_witness :
    lookupConn [(addr0, readCli [102] [7] 0)] addr0 = some (readCli [102] [7] 0) ∧
    (readCli [102] [7] 0).inited = true ∧
    handleConnection
        { connections := [(addr0, readCli [102] [7] 0)], fs := [([102], [7])] }
        addr0 (errDgram 0 []).length (recvBuf (errDgram 0 [])) =
      .ok { connections := [(addr0, readCli [102] [7] 0)], fs := [([102], [7])] }
        [{ opcode := 0, number := 0, body := [] }] :=
  ⟨by simp [lookupConn], rfl,
    claim8_peer_error_soft
      { connections := [(addr0, readCli [102] [7] 0)], fs := [([102], [7])] }
      addr0 (errDgram 0 []).length (recvBuf (errDgram 0 []))
      { numRead := (errDgram 0 []).length,
        body := List.replicate (2048 - (errDgram 0 []).length) 0,
        opcode := opERROR, number := 0, filename := [], mode := [],
        errorMessage := [] }
      (readCli [102] [7] 0) (by simp [lookupConn]) rfl
      (newRequest_err 0 [] (by decide)) rfl⟩

/-- Claim C8 counterexample: the claim says the server "sends no response
datagram back" — yet after a peer ERROR packet for an active session the
output list of the run is not empty: it contains the zero-valued response
(wire bytes 0,0,0,0). -/
theorem claim8_counterexample :
    run { connections := [(addr0, readCli [102] [7] 0)], fs := [([102], [7])] }
        [(addr0, errDgram 0 [])] =
      some ({ connections := [(addr0, readCli [102] [7] 0)],
              fs := [([102], [7])] },
        [{ opcode := 0, number := 0, body := [] }]) ∧
    sendResponse { opcode := 0, number := 0, body := [] } = [0, 0, 0, 0] := by
  constructor
  · simp only [run]
    simp only [handleConnection, lookupConn_cons_self,
      newRequest_err 0 [] (by decide)]
    simp [handleRequest, readCli, opRRQ, opWRQ, opDATA, opACK, opERROR,
      newResponse, handleResponse, syncConn, updateConn]
  · rfl

/-- Claim C6 (the code refutes it): after a WRITE session receives a DATA
packet with a 3-byte payload — shorter than the 512-byte block size, the
end-of-transfer signal — the server does send the final ACK(1), but it
never terminates the session: the table entry is still present and the
stream is still open (the source marks the gap with
`TODO: last data packet, close the client!`). -/
theorem claim6_write_session_left_open :
    run { connections := [], fs := [] }
        [(addr0, wrqDgram [103]), (addr0, dataDgram 1 [9, 9, 9])] =
      some ({ connections := [(addr0,
                { tid := addr0,
                  file := some { name := [103], pos := 3, readOnly := false,
                                 isOpen := true },
                  inited := true, lastPkt := false, blockSize := 512,
                  bytesLeft := 0 })],
              fs := [([103], [9, 9, 9])] },
        [{ opcode := opACK, number := 0, body := [] },
         { opcode := opACK, number := 1, body := [] }]) := by
  have hdata := newRequest_data 1 [9, 9, 9]
  norm_num at hdata
  simp only [run]
  rw [show ((dataDgram 1 [9, 9, 9]) : List Byte).length = 7 from rfl]
  simp only [handleConnection, lookupConn,
    newRequest_wrq (wrqDgram [103]).length [103] (by decide)]
  simp only [handleRequest, newClient, prepareFromRequest, fsLookup,
    opRRQ, opWRQ, opDATA, opACK, opERROR]
  norm_num
  simp only [newResponse, opRRQ, opACK, opDATA, opWRQ]
  norm_num
  simp only [handleResponse, syncConn, updateConn]
  norm_num
  simp only [handleConnection, lookupConn_cons_self, hdata]
  simp [handleRequest, newResponse, handleResponse, fileWrite, fsLookup,
    fsUpdate, lookupConn_cons_self, opRRQ, opWRQ, opDATA, opACK, opERROR,
    defaultBlockSize, syncConn, updateConn]

/-- Claim C10: every response the server builds for a WRQ or DATA request
is an ACK whose block number equals the block-number field decoded from the
request, and for a WRQ the decoder never parses a block number, so the ACK
answering a WRQ carries block number 0. -/
theorem claim10_wrq_data_ack (cli : client) (numRead : Nat) (buf : List Byte)
    (req : request) (hdec : newRequest numRead buf = .ok req)
    (hop : req.opcode = opWRQ ∨ req.opcode = opDATA) :
    (newResponse cli req).opcode = opACK ∧
    (newResponse cli req).number = req.number ∧
    (req.opcode = opWRQ → req.number = 0) := by
  refine ⟨?_, ?_, ?_⟩
  · rcases hop with h | h <;>
      simp [newResponse, h, opRRQ, opWRQ, opDATA, opACK]
  · rcases hop with h | h <;>
      simp [newResponse, h, opRRQ, opWRQ, opDATA, opACK]
  · intro hw
    simp only [newRequest] at hdec
    split at hdec
    · split at hdec
      · simp at hdec
      · split at hdec
        · simp at hdec
        · split at hdec
          · simp at hdec
          · cases hdec
            rfl
    · split at hdec
      · split at hdec
        · simp at hdec
        · split at hdec
          · simp at hdec
          · cases hdec
            simp_all [opRRQ, opWRQ, opDATA, opACK, opERROR]
      · split at hdec
        · split at hdec
          · simp at hdec
          · split at hdec
            · simp at hdec
            · cases hdec
              simp_all [opRRQ, opWRQ, opDATA, opACK, opERROR]
        · cases hdec
          simp_all [opRRQ, opWRQ, opDATA, opACK, opERROR]

/-- Claim C10 witness: the WRQ for file `[103]` decodes with block number 0
and is answered by ACK(0). -/
theorem claim10_wrq_data_ack_witness :
    newRequest (wrqDgram [103]).length (recvBuf (wrqDgram [103])) =
      .ok { numRead := (wrqDgram [103]).length,
            body := List.replicate (2048 - (wrqDgram [103]).length) 0,
            opcode := opWRQ, number := 0, filename := [103],
            mode := octetBytes, errorMessage := [] } ∧
    ((newResponse (newClient addr0)
        { numRead := (wrqDgram [103]).length,
          body := List.replicate (2048 - (wrqDgram [103]).length) 0,
          opcode := opWRQ, number := 0, filename := [103],
          mode := octetBytes, errorMessage := [] }).opcode = opACK ∧
      (newResponse (newClient addr0)
        { numRead := (wrqDgram [103]).length,
          body := List.replicate (2048 - (wrqDgram [103]).length) 0,
          opcode := opWRQ, number := 0, filename := [103],
          mode := octetBytes, errorMessage := [] }).number =
        ({ numRead := (wrqDgram [103]).length,
           body := List.replicate (2048 - (wrqDgram [103]).length) 0,
           opcode := opWRQ, number := 0, filename := [103],
           mode := octetBytes, errorMessage := [] } : request).number ∧
      (({ numRead := (wrqDgram [103]).length,
          body := List.replicate (2048 - (wrqDgram [103]).length) 0,
          opcode := opWRQ, number := 0, filename := [103],
          mode := octetBytes, errorMessage := [] } : request).opcode = opWRQ →
        ({ numRead := (wrqDgram [103]).length,
           body := List.replicate (2048 - (wrqDgram [103]).length) 0,
           opcode := opWRQ, number := 0, filename := [103],
           mode := octetBytes, errorMessage := [] } : request).number = 0)) :=
  ⟨newRequest_wrq (wrqDgram [103]).length [103] (by decide),
    claim10_wrq_data_ack (newClient addr0) (wrqDgram [103]).length
      (recvBuf (wrqDgram [103]))
      { numRead := (wrqDgram [103]).length,
        body := List.replicate (2048 - (wrqDgram [103]).length) 0,
        opcode := opWRQ, number := 0, filename := [103],
        mode := octetBytes, errorMessage := [] }
      (newRequest_wrq (wrqDgram [103]).length [103] (by decide))
      (Or.inl rfl)⟩

end GoTftpd
